import Mathlib

/-!
Verification of the company-data synchronization engine
(`src/services/sync_service.py`, `src/services/api_client.py`,
`src/models/sync.py`, `src/models/company.py`).

Timestamps (`datetime` values) are modelled as integers; parsing an ISO
timestamp string (`datetime.fromisoformat`, which raises `ValueError` on
malformed input) is modelled by an abstract function
`parse : String → Option Int` where `none` stands for the raised error.
Python truthiness of an optional string (`None` and `""` are falsy) is
modelled by `strTruthy`.
-/

namespace CompanySync

/-- Python truthiness of an `Optional[str]`: `None` and the empty string are
falsy, every other string is truthy. -/
def strTruthy : Option String → Bool
  | none => false
  | some s => !(s == "")

/-- A record as returned by the external API
(`src/models/company.py`, class `ExternalCompany`): `adress` is the source's
idiosyncratic spelling, `create_time` is a required string, `update_time` an
optional string. -/
structure ExternalCompany where
  id : Int
  company_name : String
  owner : Option String := none
  company_desc : Option String := none
  adress : Option String := none
  create_time : String
  update_time : Option String := none
  code : Option String := none
  uuid : Option String := none
deriving Repr, DecidableEq

/-- The internal model for creating/updating a company
(`src/models/company.py`, class `CompanyCreate`); timestamps are already
parsed here. -/
structure CompanyCreate where
  id : Option Int
  company_name : String
  owner : Option String := none
  company_desc : Option String := none
  address : Option String := none
  create_time : Option Int := none
  update_time : Option Int := none
  code : Option String := none
  uuid : Option String := none
deriving Repr, DecidableEq

/-- Pydantic field validation performed when a `CompanyCreate` is
constructed (`src/models/company.py`, class `CompanyBase`): `company_name`
has `min_length=1, max_length=255`, `owner` `max_length=100`,
`company_desc` `max_length=5000`, `address` `max_length=500`,
`code` `max_length=50`, `uuid` `max_length=100`. A violation raises a
validation error. -/
def validCompanyCreate (c : CompanyCreate) : Bool :=
  1 ≤ c.company_name.length && c.company_name.length ≤ 255 &&
  (match c.owner with | none => true | some s => s.length ≤ 100) &&
  (match c.company_desc with | none => true | some s => s.length ≤ 5000) &&
  (match c.address with | none => true | some s => s.length ≤ 500) &&
  (match c.code with | none => true | some s => s.length ≤ 50) &&
  (match c.uuid with | none => true | some s => s.length ≤ 100)

/-- Parse an optional timestamp string the way `to_internal` does:
`datetime.fromisoformat(s) if s else None`. The outer `Option` is the
possible `ValueError` (`none` = raised), the inner `Option` the field value. -/
def parseOptTime (parse : String → Option Int) (s : Option String) :
    Option (Option Int) :=
  if strTruthy s then
    match s with
    | some str => (parse str).map some
    | none => some none
  else
    some none

/-- `ExternalCompany.to_internal` (`src/models/company.py` lines 92-104):
maps the external record to a `CompanyCreate`, renaming `adress` to
`address` with default `""`, and parsing both timestamp strings. Returns
`none` when timestamp parsing or pydantic validation raises. -/
def ExternalCompany.to_internal (parse : String → Option Int)
    (ec : ExternalCompany) : Option CompanyCreate :=
  match parseOptTime parse (some ec.create_time),
      parseOptTime parse ec.update_time with
  | some ct, some ut =>
    let c : CompanyCreate :=
      { id := some ec.id
        company_name := ec.company_name
        owner := ec.owner
        company_desc := ec.company_desc
        address := match ec.adress with
          | some a => if a == "" then "" else a
          | none => ""
        create_time := ct
        update_time := ut
        code := ec.code
        uuid := ec.uuid }
    if validCompanyCreate c then some c else none
  | _, _ => none

/-- One row of the `companies` table as loaded by
`SyncService._get_existing_companies` (`src/services/sync_service.py`
lines 270-298). Only `id` and `update_time` are consumed by the
reconciliation logic; the remaining columns are carried along. -/
structure ExistingCompany where
  id : Int
  company_name : String := ""
  owner : Option String := none
  company_desc : Option String := none
  address : Option String := none
  create_time : Option String := none
  update_time : Option String := none
  code : Option String := none
  uuid : Option String := none
  last_sync_at : Option String := none
  is_active : Bool := true
deriving Repr, DecidableEq

/-- `SyncService._needs_update` (`src/services/sync_service.py` lines
338-352). The Python code takes the existing row, the converted internal
record and the raw external record; it reads only
`existing["update_time"]` and `external.update_time`, so the model takes
those two fields. A failed parse (the caught `ValueError`) falls through
to `return True`. -/
def needs_update (parse : String → Option Int)
    (existing_update_time external_update_time : Option String) : Bool :=
  if strTruthy external_update_time && strTruthy existing_update_time then
    match external_update_time, existing_update_time with
    | some ext, some exi =>
      match parse ext with
      | none => true
      | some external_time =>
        match parse exi with
        | none => true
        | some existing_time =>
          if external_time ≤ existing_time then false else true
    | _, _ => true
  else
    true

/-- A tiny concrete stand-in for `datetime.fromisoformat` used in concrete
evaluations: `"t1"` and `"t2"` parse to the instants `1` and `2`, everything
else (including `""`) raises. -/
def parseT : String → Option Int :=
  fun s => if s == "t1" then some 1 else if s == "t2" then some 2 else none

/-- One iteration of the classification loop of `SyncService._process_batch`
(`src/services/sync_service.py` lines 308-322): convert the external record
(`to_internal` raising counts as one failure), then classify by presence in
`existing_by_id` and by `needs_update`. The accumulator is
`(failed_count, to_insert, to_update)`. -/
def processStep (parse : String → Option Int)
    (existing_by_id : Int → Option ExistingCompany) :
    Nat × List CompanyCreate × List CompanyCreate → ExternalCompany →
    Nat × List CompanyCreate × List CompanyCreate
  | (failed, to_insert, to_update), ec =>
    match ec.to_internal parse with
    | none => (failed + 1, to_insert, to_update)
    | some ic =>
      match existing_by_id ec.id with
      | some existing =>
        if needs_update parse existing.update_time ec.update_time then
          (failed, to_insert, to_update ++ [ic])
        else
          (failed, to_insert, to_update)
      | none => (failed, to_insert ++ [ic], to_update)

/-- The classification loop of `_process_batch` over a whole batch. -/
def partitionBatch (parse : String → Option Int)
    (existing_by_id : Int → Option ExistingCompany)
    (batch : List ExternalCompany) :
    Nat × List CompanyCreate × List CompanyCreate :=
  batch.foldl (processStep parse existing_by_id) (0, [], [])

/-- `SyncService._process_batch` (`src/services/sync_service.py` lines
300-336). `_insert_companies` and `_update_companies` each run one
transaction and either return the length of their input list or raise
`DatabaseException`; the booleans `insert_ok` / `update_ok` model the two
transaction outcomes, `Except.error` the propagated exception. On the
non-raising path the function returns `(success_count, failed_count)` with
`success_count = len(to_insert) + len(to_update)`. -/
def process_batch (parse : String → Option Int)
    (insert_ok update_ok : Bool)
    (batch : List ExternalCompany)
    (existing_by_id : Int → Option ExistingCompany) :
    Except Unit (Nat × Nat) :=
  match partitionBatch parse existing_by_id batch with
  | (failed, to_insert, to_update) =>
    if !to_insert.isEmpty && !insert_ok then Except.error ()
    else if !to_update.isEmpty && !update_ok then Except.error ()
    else Except.ok (to_insert.length + to_update.length, failed)

/-- A record the spec calls "skipped": its conversion succeeds, its
identifier is present in the existing index, and `needs_update` is false.
Such a record is appended to neither `to_insert` nor `to_update`. -/
def isSkipped (parse : String → Option Int)
    (existing_by_id : Int → Option ExistingCompany)
    (ec : ExternalCompany) : Bool :=
  match ec.to_internal parse, existing_by_id ec.id with
  | some _, some existing =>
    !needs_update parse existing.update_time ec.update_time
  | _, _ => false

/-- Number of skipped records in a batch. -/
def skippedCount (parse : String → Option Int)
    (existing_by_id : Int → Option ExistingCompany)
    (batch : List ExternalCompany) : Nat :=
  (batch.filter (isSkipped parse existing_by_id)).length

/-- The skipped record of the counterexample: its id `1` is present in the
existing index and its incoming update time (`t1`, instant 1) is ≤ the
stored update time (`t2`, instant 2), so `_process_batch` leaves it in
neither `to_insert` nor `to_update`. -/
def skipRecord : ExternalCompany :=
  { id := 1, company_name := "c", create_time := "t1",
    update_time := some "t1" }

/-- An existing index holding exactly one row, id `1`, stored update time
`t2`. -/
def oneExistingIdx : Int → Option ExistingCompany :=
  fun i => if i = 1 then some { id := 1, update_time := some "t2" } else none

/-- Record number `i` of the end-to-end scenario: ids `0..36` are new,
`37..41` need an update, `42..99` are unchanged. Every incoming record
carries update time `"t2"` (instant 2) and create time `"t1"`. -/
def scenarioRecord (i : Nat) : ExternalCompany :=
  { id := (i : Int), company_name := "c", create_time := "t1",
    update_time := some "t2" }

/-- The 100-record incoming batch of the end-to-end scenario. -/
def scenarioBatch : List ExternalCompany :=
  (List.range 100).map scenarioRecord

/-- The existing index of the end-to-end scenario: ids `37..99` are
present; `37..41` store the older update time `"t1"` (so the incoming
record is newer and needs an update), `42..99` store `"t2"` (equal to the
incoming time, hence skipped). -/
def scenarioIdx : Int → Option ExistingCompany :=
  fun i =>
    if 37 ≤ i ∧ i ≤ 99 then
      some { id := i, update_time := some (if i ≤ 41 then "t1" else "t2") }
    else none

/-- Outcome of one HTTP attempt inside `APIClient._request`
(`src/services/api_client.py` lines 76-117): a parsed JSON payload
(abstracted as a `Nat`), a 2xx response whose JSON fails to parse, an
`httpx.HTTPStatusError` with its status code, or an `httpx.RequestError`
(network-level failure). -/
inductive AttemptOutcome where
  | success (data : Nat)
  | jsonFailure
  | httpError (status : Nat)
  | networkError
deriving Repr, DecidableEq

/-- The `APIException` raised by `_request`: an HTTP error carrying the
status code, a network-level request failure, or a JSON parse failure. -/
inductive APIError where
  | httpStatus (status : Nat)
  | requestFailed
  | jsonParse
deriving Repr, DecidableEq

/-- The retry loop of `APIClient._request` (`src/services/api_client.py`
lines 83-117), with the attempt outcomes supplied by `responses`.
`remaining` is the number of retries still allowed
(`retry_attempts - attempt`), `attempt` the 0-based attempt index. A 4xx
status and a JSON parse failure raise immediately; 5xx and network errors
retry after a backoff delay of `retry_delay * 2 ^ attempt`, which is
recorded in the returned delay list; when no retries remain the last
error is raised. -/
def requestGo (responses : Nat → AttemptOutcome) (retry_delay : ℚ) :
    Nat → Nat → Except APIError Nat × List ℚ
  | remaining, attempt =>
    match responses attempt with
    | .success v => (Except.ok v, [])
    | .jsonFailure => (Except.error APIError.jsonParse, [])
    | .httpError s =>
      if 400 ≤ s && s < 500 then (Except.error (APIError.httpStatus s), [])
      else
        match remaining with
        | 0 => (Except.error (APIError.httpStatus s), [])
        | r + 1 =>
          let rest := requestGo responses retry_delay r (attempt + 1)
          (rest.1, retry_delay * 2 ^ attempt :: rest.2)
    | .networkError =>
      match remaining with
      | 0 => (Except.error APIError.requestFailed, [])
      | r + 1 =>
        let rest := requestGo responses retry_delay r (attempt + 1)
        (rest.1, retry_delay * 2 ^ attempt :: rest.2)

/-- `APIClient._request`: `retry_attempts + 1` total attempts starting at
attempt 0 (`for attempt in range(self.settings.sync_retry_attempts + 1)`),
returning the result together with the observed backoff delays. -/
def api_request (responses : Nat → AttemptOutcome) (retry_attempts : Nat)
    (retry_delay : ℚ) : Except APIError Nat × List ℚ :=
  requestGo responses retry_delay retry_attempts 0

/-- An outcome the retry loop retries on: a non-4xx HTTP error (in
particular 5xx) or a network-level failure. -/
def isRetryable : AttemptOutcome → Bool
  | .httpError s => !(400 ≤ s && s < 500)
  | .networkError => true
  | .success _ => false
  | .jsonFailure => false

/-- The `APIException` recorded in `last_exception` for a retryable
outcome (the other two outcomes never reach the end of the loop). -/
def errOf : AttemptOutcome → APIError
  | .httpError s => APIError.httpStatus s
  | .networkError => APIError.requestFailed
  | .success _ => APIError.requestFailed
  | .jsonFailure => APIError.jsonParse

/-- A source that always answers 404. -/
def resp404 : Nat → AttemptOutcome := fun _ => AttemptOutcome.httpError 404

/-- A source that always answers 503. -/
def resp503 : Nat → AttemptOutcome := fun _ => AttemptOutcome.httpError 503

/-- A source that answers 503 on the first two attempts and then succeeds
with payload 7. -/
def resp503twice : Nat → AttemptOutcome := fun n =>
  if n < 2 then AttemptOutcome.httpError 503 else AttemptOutcome.success 7

/-- `APIClient.get_total_pages` (`src/services/api_client.py` lines
142-152): `pages_needed = (total_records + page_size - 1) // page_size`,
where `total_records` is reported by the first page. -/
def get_total_pages (total_records page_size : Nat) : Nat :=
  (total_records + page_size - 1) / page_size

/-- Completion of one page-fetch task inside `asyncio.gather`
(`src/services/api_client.py` lines 162-171): the result of page `p` is
stored in the slot indexed by `p`'s task position, regardless of when the
task completes. -/
def fillSlot (fetch : Nat → List ExternalCompany)
    (slots : Nat → Option (List ExternalCompany)) (p : Nat) :
    Nat → Option (List ExternalCompany) :=
  fun q => if q = p then some (fetch p) else slots q

/-- Run the page-fetch tasks in the completion order `order`: each
completing task fills its own slot. -/
def runSchedule (fetch : Nat → List ExternalCompany) (order : List Nat)
    (slots : Nat → Option (List ExternalCompany)) :
    Nat → Option (List ExternalCompany) :=
  order.foldl (fillSlot fetch) slots

/-- `APIClient.get_all_companies` (`src/services/api_client.py` lines
154-183): tasks are created for page numbers `1 .. total_pages` in order,
`asyncio.gather` returns their results indexed by task position (modelled
by the slots filled in completion order `order`), and the final loop
concatenates `results` in task order into `all_companies`. -/
def get_all_companies (fetch : Nat → List ExternalCompany)
    (total_records page_size : Nat) (order : List Nat) :
    List ExternalCompany :=
  ((List.range' 1 (get_total_pages total_records page_size)).map
    (fun p => (runSchedule fetch order (fun _ => none) p).getD [])).flatten

/-- One row of the `sync_logs` table (`src/scripts/init_db.py` lines
97-109). The mutable columns are nullable in the model because the blanket
`UPDATE` of `_update_sync_log` can write NULL into them; `status` is
written from the update object's optional field, so it is optional here
too (every call site sets it). -/
structure SyncLogRow where
  id : Nat
  start_time : Int
  end_time : Option Int := none
  status : Option String
  total_records : Option Nat := some 0
  success_records : Option Nat := some 0
  failed_records : Option Nat := some 0
  error_message : Option String := none
  duration_ms : Option Nat := none
deriving Repr, DecidableEq

/-- `SyncLogUpdate` (`src/models/sync.py` lines 26-34): every field is
optional and defaults to `None`. -/
structure SyncLogUpdate where
  end_time : Option Int := none
  status : Option String := none
  total_records : Option Nat := none
  success_records : Option Nat := none
  failed_records : Option Nat := none
  error_message : Option String := none
  duration_ms : Option Nat := none
deriving Repr, DecidableEq

/-- The SQL `UPDATE` of `SyncService._update_sync_log`
(`src/services/sync_service.py` lines 252-268): it sets all seven mutable
columns to the update object's fields, `None` (NULL) included. -/
def applyUpdate (row : SyncLogRow) (u : SyncLogUpdate) : SyncLogRow :=
  { row with
    end_time := u.end_time
    status := u.status
    total_records := u.total_records
    success_records := u.success_records
    failed_records := u.failed_records
    error_message := u.error_message
    duration_ms := u.duration_ms }

/-- Apply `_update_sync_log` to the table: the row whose `id` matches is
rewritten (`WHERE id = ?`), the rest are untouched. -/
def updateLog (logs : List SyncLogRow) (id : Nat) (u : SyncLogUpdate) :
    List SyncLogRow :=
  logs.map (fun r => if r.id = id then applyUpdate r u else r)

/-- Select the sync-log row with the given primary key. -/
def findLog (logs : List SyncLogRow) (id : Nat) : Option SyncLogRow :=
  logs.find? (fun r => r.id == id)

/-- `SyncState` (`src/models/sync.py` lines 79-117), the process-wide
in-memory progress state. -/
structure SyncState where
  is_running : Bool := false
  current_sync_id : Option Nat := none
  current_page : Nat := 0
  total_pages : Nat := 0
  processed_records : Nat := 0
  total_records : Nat := 0
  start_time : Option Int := none
  last_update : Option Int := none
deriving Repr, DecidableEq

/-- `SyncState.get_percentage` (`src/models/sync.py` lines 97-101):
returns 0 when `total_records` is 0, else
`processed_records / total_records * 100`. -/
def SyncState.get_percentage (st : SyncState) : ℚ :=
  if st.total_records = 0 then 0
  else ((st.processed_records : ℚ) / (st.total_records : ℚ)) * 100

/-- Python `int()` truncation toward zero on a rational. -/
def truncQ (x : ℚ) : Int := if 0 ≤ x then ⌊x⌋ else ⌈x⌉

/-- `SyncState.get_estimated_remaining_seconds` (`src/models/sync.py`
lines 103-117), with `datetime.now()` passed in as `now`. -/
def SyncState.get_estimated_remaining_seconds (st : SyncState)
    (now : Int) : Option Int :=
  match st.start_time with
  | none => none
  | some t0 =>
    if st.processed_records = 0 then none
    else
      let elapsed : ℚ := (now : ℚ) - (t0 : ℚ)
      if elapsed = 0 then none
      else
        let rate : ℚ := (st.processed_records : ℚ) / elapsed
        if rate = 0 then none
        else
          let remaining : ℚ :=
            (st.total_records : ℚ) - (st.processed_records : ℚ)
          some (truncQ (remaining / rate))

/-- The dictionary returned by `SyncService.get_sync_progress`
(`src/services/sync_service.py` lines 172-196); the idle branch carries no
`current_operation` key, modelled as `none`. -/
structure ProgressSnapshot where
  is_running : Bool
  current_page : Nat
  total_pages : Nat
  processed_records : Nat
  total_records : Nat
  percentage : ℚ
  estimated_remaining_seconds : Option Int
  current_operation : Option String
deriving Repr, DecidableEq

/-- `SyncService.get_sync_progress`: a zeroed not-running snapshot when
idle, else a snapshot of the live state. -/
def get_sync_progress (st : SyncState) (now : Int) : ProgressSnapshot :=
  if !st.is_running then
    { is_running := false, current_page := 0, total_pages := 0,
      processed_records := 0, total_records := 0, percentage := 0,
      estimated_remaining_seconds := none, current_operation := none }
  else
    { is_running := true, current_page := st.current_page,
      total_pages := st.total_pages,
      processed_records := st.processed_records,
      total_records := st.total_records,
      percentage := st.get_percentage,
      estimated_remaining_seconds :=
        st.get_estimated_remaining_seconds now,
      current_operation := some ("Processing page "
        ++ toString st.current_page ++ " of "
        ++ toString st.total_pages) }

/-- The orchestrator's world: the global progress state, the `sync_logs`
table and the next AUTOINCREMENT primary key. -/
structure SyncWorld where
  state : SyncState
  logs : List SyncLogRow
  nextId : Nat
deriving Repr, DecidableEq

/-- `SyncService._create_sync_log` (`src/services/sync_service.py` lines
227-250): inserts a row with status `running` and zero counts, returning
the fresh row. -/
def create_sync_log (now : Int) (w : SyncWorld) : SyncWorld × SyncLogRow :=
  let row : SyncLogRow :=
    { id := w.nextId, start_time := now, status := some "running",
      total_records := some 0, success_records := some 0,
      failed_records := some 0 }
  ({ w with logs := w.logs ++ [row], nextId := w.nextId + 1 }, row)

/-- `SyncService.start_sync` (`src/services/sync_service.py` lines 24-46):
raises `SyncInProgressException` (the `Except.error`) when the global
running flag is set — before any write; otherwise inserts the `running`
sync-log row, publishes the fresh running state and returns the new run. -/
def start_sync (now : Int) (w : SyncWorld) :
    Except Unit (SyncWorld × SyncLogRow) :=
  if w.state.is_running then Except.error ()
  else
    match create_sync_log now w with
    | (w1, row) =>
      Except.ok
        ({ w1 with state :=
            { is_running := true, current_sync_id := some row.id,
              current_page := 0, total_pages := 0, processed_records := 0,
              total_records := 0, start_time := some now,
              last_update := none } },
         row)

/-- `SyncService.cancel_sync` (`src/services/sync_service.py` lines
148-170): a no-op returning `false` when not running; else writes
`end_time` and status `cancelled` to the current run's row (guarded by the
Python truthiness of `state.current_sync_id`, hence the `id ≠ 0` check)
and clears the running flag. -/
def cancel_sync (now : Int) (w : SyncWorld) : Bool × SyncWorld :=
  if !w.state.is_running then (false, w)
  else
    let u : SyncLogUpdate :=
      { end_time := some now, status := some "cancelled" }
    let w1 :=
      match w.state.current_sync_id with
      | some id =>
        if id ≠ 0 then { w with logs := updateLog w.logs id u } else w
      | none => w
    (true, { w1 with state := { w1.state with is_running := false } })

/-- The completion epilogue of `SyncService.perform_sync`
(`src/services/sync_service.py` lines 101-117): after the batch loop it
unconditionally writes the terminal `completed` sync-log update carrying
the run's counts and duration, then clears the running flag. `total`,
`success`, `failed` and `duration` are the values computed by the run. -/
def perform_sync_complete (end_now : Int)
    (total success failed duration : Nat) (sync_log_id : Nat)
    (w : SyncWorld) : SyncWorld :=
  let u : SyncLogUpdate :=
    { end_time := some end_now, status := some "completed",
      total_records := some total, success_records := some success,
      failed_records := some failed, duration_ms := some duration }
  let w1 := { w with logs := updateLog w.logs sync_log_id u }
  { w1 with state := { w1.state with is_running := false } }

/-- The failure epilogue of `perform_sync` (`src/services/sync_service.py`
lines 128-146): on any exception it unconditionally writes the terminal
`failed` sync-log update with the error message, then clears the running
flag. -/
def perform_sync_failed (end_now : Int) (msg : String) (duration : Nat)
    (sync_log_id : Nat) (w : SyncWorld) : SyncWorld :=
  let u : SyncLogUpdate :=
    { end_time := some end_now, status := some "failed",
      error_message := some msg, duration_ms := some duration }
  let w1 := { w with logs := updateLog w.logs sync_log_id u }
  { w1 with state := { w1.state with is_running := false } }

/-- The sync-log row inserted by `start_sync`: status `running`, zero
counts. -/
def runningRow (id : Nat) (now : Int) : SyncLogRow :=
  { id := id, start_time := now, status := some "running",
    total_records := some 0, success_records := some 0,
    failed_records := some 0 }

/-- The progress state published by `start_sync`: running, the fresh run's
identifier, zero page and record counts, start time `now`. -/
def freshRunningState (id : Nat) (now : Int) : SyncState :=
  { is_running := true, current_sync_id := some id, current_page := 0,
    total_pages := 0, processed_records := 0, total_records := 0,
    start_time := some now, last_update := none }

/-- The initial world: idle state, empty sync-log table, next primary key
1. -/
def idleWorld : SyncWorld := { state := {}, logs := [], nextId := 1 }

/-- The world right after `start_sync` at time 0 from `idleWorld`. -/
def startedWorld : SyncWorld :=
  { state := freshRunningState 1 0, logs := [runningRow 1 0], nextId := 2 }

/-- A running run's sync-log row holding non-null counts, an error message
and a duration, to exhibit the blanket overwrite. -/
def richRow : SyncLogRow :=
  { id := 1, start_time := 0, end_time := none, status := some "running",
    total_records := some 7, success_records := some 5,
    failed_records := some 2, error_message := some "e",
    duration_ms := some 9 }

/-- A running world whose log row is `richRow`. -/
def richRunningWorld : SyncWorld :=
  { state := freshRunningState 1 0, logs := [richRow], nextId := 2 }

/-- The live progress state of the repo's own example: 150 of 500 records
processed. -/
def progressState : SyncState :=
  { is_running := true, current_sync_id := some 1, current_page := 3,
    total_pages := 10, processed_records := 150, total_records := 500,
    start_time := some 0, last_update := none }

/-- The world after `cancel_sync` at time 1 on `startedWorld`: the run is
cancelled while the perform step is still executing. -/
def cancelledWorld : SyncWorld := (cancel_sync 1 startedWorld).2

/-- Row 1 as written by that cancellation. -/
def cancelledRow : SyncLogRow :=
  { id := 1, start_time := 0, end_time := some 1,
    status := some "cancelled", total_records := none,
    success_records := none, failed_records := none,
    error_message := none, duration_ms := none }

/-- Identity of one of two concurrent `start_sync` callers. -/
inductive Caller where
  | A
  | B
deriving Repr, DecidableEq

/-- Program counter of one `start_sync` call. The running-flag check
(`src/services/sync_service.py` lines 26-28) and the `set_sync_state`
publishing the running state (line 43) are separated by the awaited
sync-log insert (`await self._create_sync_log()`, line 31), a suspension
point of the event loop: `passed` is a call suspended there, having
already passed the check. -/
inductive StartPC where
  | ready
  | passed
  | accepted (id : Nat)
  | rejected
deriving Repr, DecidableEq

/-- Two concurrent `start_sync` calls sharing the world. -/
structure TwoStarts where
  world : SyncWorld
  a : StartPC
  b : StartPC
deriving Repr, DecidableEq

/-- One scheduler step of caller `c`: from `ready` it executes the
running-flag check and either rejects (raising the already-running
condition) or proceeds to the awaited insert; from `passed` it resumes,
the insert commits its row and the fresh running state is published, and
the call is accepted with the new run's id. Accepted and rejected calls
take no further steps. -/
def startStep (now : Int) (c : Caller) (s : TwoStarts) : TwoStarts :=
  let pc := match c with | Caller.A => s.a | Caller.B => s.b
  let next :=
    match pc with
    | StartPC.ready =>
      if s.world.state.is_running then (StartPC.rejected, s.world)
      else (StartPC.passed, s.world)
    | StartPC.passed =>
      match create_sync_log now s.world with
      | (w1, row) =>
        (StartPC.accepted row.id,
         { w1 with state := freshRunningState row.id now })
    | pc0 => (pc0, s.world)
  match c with
  | Caller.A => { world := next.2, a := next.1, b := s.b }
  | Caller.B => { world := next.2, a := s.a, b := next.1 }

/-- Run a schedule of caller steps. -/
def runStarts (now : Int) (sched : List Caller) (s : TwoStarts) :
    TwoStarts :=
  sched.foldl (fun s c => startStep now c s) s

/-- Both callers ready against the idle initial world. -/
def twoStartsInit : TwoStarts :=
  { world := idleWorld, a := StartPC.ready, b := StartPC.ready }

example : needs_update parseT (some "t2") (some "t1") = false := by decide

example : needs_update parseT (some "t1") (some "t2") = true := by decide

example : needs_update parseT none (some "t2") = true := by decide

example : needs_update parseT (some "x") (some "t2") = true := by decide

lemma partition_accounting (parse : String → Option Int)
    (existing_by_id : Int → Option ExistingCompany) :
    ∀ (batch : List ExternalCompany) (f0 : Nat)
      (ins0 upd0 : List CompanyCreate),
    (batch.foldl (processStep parse existing_by_id) (f0, ins0, upd0)).1
      + (batch.foldl (processStep parse existing_by_id) (f0, ins0, upd0)).2.1.length
      + (batch.foldl (processStep parse existing_by_id) (f0, ins0, upd0)).2.2.length
      + skippedCount parse existing_by_id batch
    = f0 + ins0.length + upd0.length + batch.length := by
  intro batch
  induction batch with
  | nil =>
    intro f0 ins0 upd0
    simp [skippedCount]
  | cons ec rest ih =>
    intro f0 ins0 upd0
    simp only [List.foldl_cons]
    cases hto : ec.to_internal parse with
    | none =>
      have hskip : skippedCount parse existing_by_id (ec :: rest)
          = skippedCount parse existing_by_id rest := by
        simp [skippedCount, List.filter_cons, isSkipped, hto]
      rw [hskip]
      simp only [processStep, hto]
      have := ih (f0 + 1) ins0 upd0
      simp only [List.length_cons] at this ⊢
      omega
    | some ic =>
      cases hidx : existing_by_id ec.id with
      | none =>
        have hskip : skippedCount parse existing_by_id (ec :: rest)
            = skippedCount parse existing_by_id rest := by
          simp [skippedCount, List.filter_cons, isSkipped, hto, hidx]
        rw [hskip]
        simp only [processStep, hto, hidx]
        have := ih f0 (ins0 ++ [ic]) upd0
        simp only [List.length_append, List.length_cons, List.length_nil] at this ⊢
        omega
      | some existing =>
        cases hnu : needs_update parse existing.update_time ec.update_time with
        | true =>
          have hskip : skippedCount parse existing_by_id (ec :: rest)
              = skippedCount parse existing_by_id rest := by
            simp [skippedCount, List.filter_cons, isSkipped, hto, hidx, hnu]
          rw [hskip]
          simp only [processStep, hto, hidx, hnu, if_true]
          have := ih f0 ins0 (upd0 ++ [ic])
          simp only [List.length_append, List.length_cons, List.length_nil] at this ⊢
          omega
        | false =>
          have hskip : skippedCount parse existing_by_id (ec :: rest)
              = skippedCount parse existing_by_id rest + 1 := by
            simp [skippedCount, List.filter_cons, isSkipped, hto, hidx, hnu]
          rw [hskip]
          simp only [processStep, hto, hidx, hnu, Bool.false_eq_true,
            if_false]
          have := ih f0 ins0 upd0
          simp only [List.length_cons] at this ⊢
          omega

example : process_batch parseT true true [skipRecord] oneExistingIdx
    = Except.ok (0, 0) := by rfl

/-- C1, counterexample. The claim states that a skipped record (identifier
present in the existing index, incoming update-time ≤ existing update-time)
is "counted as success", so that success = inserts + updates + skipped. On
the batch `[skipRecord]` with index `oneExistingIdx` the record is skipped,
yet `_process_batch` returns `(success, failed) = (0, 0)`: the skipped
record is counted neither as success nor as failure, and
`0 ≠ inserts (0) + updates (0) + skipped (1)`. -/
theorem C1_counterexample_skipped_not_counted_as_success :
    process_batch parseT true true [skipRecord] oneExistingIdx
        = Except.ok (0, 0)
      ∧ isSkipped parseT oneExistingIdx skipRecord = true
      ∧ skippedCount parseT oneExistingIdx [skipRecord] = 1
      ∧ (0 : Nat) ≠ 0 + 0 + skippedCount parseT oneExistingIdx [skipRecord] := by
  refine ⟨by rfl, by rfl, by rfl, by decide⟩

/-- C1, amended. In `_process_batch`, an incoming record whose identifier is
present in the existing index and whose update-time is ≤ the existing
record's update-time is skipped and counted neither as success nor as
insert, update, or failure. Consequently, when both batch transactions
succeed, the returned success count equals inserts + updates (excluding
skipped records) and success + failed + skipped = batch size; in the
end-to-end scenario of 100 records (37 new, 5 needing update, 58
unchanged) the batch yields success = 42 and failed = 0. -/
theorem C1_amended_success_excludes_skipped
    (parse : String → Option Int)
    (existing_by_id : Int → Option ExistingCompany)
    (batch : List ExternalCompany) (s f : Nat)
    (h : process_batch parse true true batch existing_by_id
      = Except.ok (s, f)) :
    s = (partitionBatch parse existing_by_id batch).2.1.length
        + (partitionBatch parse existing_by_id batch).2.2.length
      ∧ s + f + skippedCount parse existing_by_id batch = batch.length := by
  rcases hpb : partitionBatch parse existing_by_id batch with
    ⟨failed, to_insert, to_update⟩
  simp only [process_batch, hpb, Bool.not_true, Bool.and_false,
    Bool.false_eq_true, if_false] at h
  have hs : to_insert.length + to_update.length = s ∧ failed = f := by
    have := h
    simp only [Except.ok.injEq, Prod.mk.injEq] at this
    exact this
  have hacc := partition_accounting parse existing_by_id batch 0 [] []
  simp only [partitionBatch] at hpb
  rw [hpb] at hacc
  simp only [List.length_nil] at hacc
  exact ⟨hs.1.symm, by omega⟩

/-- Witness for C1's amended theorem: the 100-record end-to-end scenario
(37 new, 5 needing update, 58 unchanged) processed as one batch yields
`(success, failed) = (42, 0)`, and the accounting identity instantiates to
`42 + 0 + 58 = 100`. -/
theorem C1_amended_success_excludes_skipped_witness :
    process_batch parseT true true scenarioBatch scenarioIdx
        = Except.ok (42, 0)
      ∧ skippedCount parseT scenarioIdx scenarioBatch = 58
      ∧ (42 = (partitionBatch parseT scenarioIdx scenarioBatch).2.1.length
            + (partitionBatch parseT scenarioIdx scenarioBatch).2.2.length
          ∧ 42 + 0 + skippedCount parseT scenarioIdx scenarioBatch
            = scenarioBatch.length) := by
  have h : process_batch parseT true true scenarioBatch scenarioIdx
      = Except.ok (42, 0) := by rfl
  exact ⟨h, by rfl,
    C1_amended_success_excludes_skipped parseT scenarioIdx scenarioBatch
      42 0 h⟩

lemma needs_update_false_characterization (parse : String → Option Int)
    (existing_ut external_ut : Option String) :
    needs_update parse existing_ut external_ut = false ↔
      ∃ se sx, external_ut = some se ∧ existing_ut = some sx ∧
        ¬se = "" ∧ ¬sx = "" ∧
        ∃ te tx, parse se = some te ∧ parse sx = some tx ∧ te ≤ tx := by
  cases external_ut with
  | none => simp [needs_update, strTruthy]
  | some se =>
    cases existing_ut with
    | none => simp [needs_update, strTruthy]
    | some sx =>
      by_cases hse : se = ""
      · simp [needs_update, strTruthy, hse]
      · by_cases hsx : sx = ""
        · simp [needs_update, strTruthy, hse, hsx]
        · cases hpe : parse se with
          | none => simp [needs_update, strTruthy, hse, hsx, hpe]
          | some te =>
            cases hpx : parse sx with
            | none => simp [needs_update, strTruthy, hse, hsx, hpe, hpx]
            | some tx =>
              by_cases hle : te ≤ tx
              · simp [needs_update, strTruthy, hse, hsx, hpe, hpx, hle]
              · simp [needs_update, strTruthy, hse, hsx, hpe, hpx, hle]

/-- C5: `_needs_update` returns `false` if and only if both the incoming
(external) record's update timestamp and the existing row's update
timestamp are present and parseable and the incoming timestamp is ≤ the
existing one; in every other case (either timestamp missing, or failing to
parse) it returns `true`. The hypothesis `parse "" = none` reflects that
`datetime.fromisoformat("")` raises, matching the Python truthiness check
that treats an empty timestamp string as missing. -/
theorem C5_needs_update_iff
    (parse : String → Option Int) (hparse : parse "" = none)
    (existing_ut external_ut : Option String) :
    needs_update parse existing_ut external_ut = false ↔
      ∃ se sx te tx, external_ut = some se ∧ existing_ut = some sx ∧
        parse se = some te ∧ parse sx = some tx ∧ te ≤ tx := by
  rw [needs_update_false_characterization]
  constructor
  · rintro ⟨se, sx, h1, h2, _, _, te, tx, h5, h6, h7⟩
    exact ⟨se, sx, te, tx, h1, h2, h5, h6, h7⟩
  · rintro ⟨se, sx, te, tx, h1, h2, h5, h6, h7⟩
    refine ⟨se, sx, h1, h2, ?_, ?_, te, tx, h5, h6, h7⟩
    · intro h
      rw [h, hparse] at h5
      exact Option.noConfusion h5
    · intro h
      rw [h, hparse] at h6
      exact Option.noConfusion h6

/-- Witness for C5: with the concrete parse function `parseT`, an existing
row updated at instant 2 and an incoming record updated at instant 1, the
characterization yields `needs_update = false` (the record is skipped). -/
theorem C5_needs_update_iff_witness :
    needs_update parseT (some "t2") (some "t1") = false :=
  (C5_needs_update_iff parseT (by decide) (some "t2") (some "t1")).mpr
    ⟨"t1", "t2", 1, 2, rfl, rfl, by decide, by decide, by decide⟩

lemma requestGo_client_error (responses : Nat → AttemptOutcome)
    (d : ℚ) (remaining attempt s : Nat)
    (h4 : 400 ≤ s) (h5 : s < 500)
    (hresp : responses attempt = AttemptOutcome.httpError s) :
    requestGo responses d remaining attempt
      = (Except.error (APIError.httpStatus s), []) := by
  cases remaining with
  | zero =>
    rw [requestGo, hresp]
    simp [h4, h5]
  | succ r =>
    rw [requestGo, hresp]
    simp [h4, h5]

lemma requestGo_exhaust (responses : Nat → AttemptOutcome) (d : ℚ) :
    ∀ (remaining attempt : Nat),
    (∀ i, i ≤ remaining → isRetryable (responses (attempt + i)) = true) →
    requestGo responses d remaining attempt
      = (Except.error (errOf (responses (attempt + remaining))),
         (List.range remaining).map (fun i => d * 2 ^ (attempt + i))) := by
  intro remaining
  induction remaining with
  | zero =>
    intro attempt h
    have h0 := h 0 (Nat.le_refl 0)
    simp only [Nat.add_zero] at h0 ⊢
    rw [requestGo]
    cases hr : responses attempt with
    | success v => rw [hr] at h0; simp [isRetryable] at h0
    | jsonFailure => rw [hr] at h0; simp [isRetryable] at h0
    | httpError s => simp [errOf]
    | networkError => simp [errOf]
  | succ r ih =>
    intro attempt h
    have h0 := h 0 (Nat.zero_le _)
    simp only [Nat.add_zero] at h0
    have hrest :
        ∀ i, i ≤ r → isRetryable (responses (attempt + 1 + i)) = true := by
      intro i hi
      have := h (i + 1) (by omega)
      have harith : attempt + (i + 1) = attempt + 1 + i := by omega
      rwa [harith] at this
    have ihr := ih (attempt + 1) hrest
    have harith2 : attempt + 1 + r = attempt + (r + 1) := by omega
    rw [harith2] at ihr
    have hlist :
        d * 2 ^ attempt
            :: (List.range r).map (fun i => d * 2 ^ (attempt + 1 + i))
          = (List.range (r + 1)).map (fun i => d * 2 ^ (attempt + i)) := by
      rw [List.range_succ_eq_map, List.map_cons, List.map_map]
      refine congrArg₂ _ (by rw [Nat.add_zero]) ?_
      refine List.map_congr_left ?_
      intro i _
      have harith3 : attempt + (i + 1) = attempt + 1 + i := by omega
      simp [Function.comp, harith3]
    rw [requestGo]
    cases hr : responses attempt with
    | success v => rw [hr] at h0; simp [isRetryable] at h0
    | jsonFailure => rw [hr] at h0; simp [isRetryable] at h0
    | httpError s =>
      rw [hr] at h0
      simp only [isRetryable, Bool.not_eq_true'] at h0
      simp only [h0, Bool.false_eq_true, if_false]
      rw [ihr]
      exact congrArg _ hlist
    | networkError =>
      simp only []
      rw [ihr]
      exact congrArg _ hlist

lemma requestGo_503_scenario (responses : Nat → AttemptOutcome) (d : ℚ)
    (v k : Nat)
    (h0 : responses 0 = AttemptOutcome.httpError 503)
    (h1 : responses 1 = AttemptOutcome.httpError 503)
    (h2 : responses 2 = AttemptOutcome.success v)
    (hk : 2 ≤ k) :
    api_request responses k d = (Except.ok v, [d * 2 ^ 0, d * 2 ^ 1]) := by
  obtain ⟨r, rfl⟩ : ∃ r, k = r + 2 := ⟨k - 2, by omega⟩
  have e2 : requestGo responses d r 2 = (Except.ok v, []) := by
    cases r with
    | zero => rw [requestGo, h2]
    | succ n => rw [requestGo, h2]
  have e1 : requestGo responses d (r + 1) 1 = (Except.ok v, [d * 2 ^ 1]) := by
    rw [requestGo, h1]
    norm_num
    rw [e2]
    exact ⟨rfl, rfl⟩
  show requestGo responses d (r + 1 + 1) 0 = _
  rw [requestGo, h0]
  norm_num
  rw [e1]
  refine ⟨rfl, ?_⟩
  simp [pow_one]

/-- C6: the page-fetch retry policy of `APIClient._request`. First, a 4xx
response raises the client-error condition immediately with no retry and
no backoff delay, at any attempt and with any number of retries left.
Second, when every attempt fails retryably (network failure or 5xx), the
loop performs `retry_attempts` retries with backoff delay
`retry_delay * 2 ^ attempt` before each, and finally raises the last
error. Third, a sequence of two 503 responses followed by a success
returns the successful result after exactly the two backoff delays
`d * 2 ^ 0` and `d * 2 ^ 1`. -/
theorem C6_fetch_retry_policy (responses : Nat → AttemptOutcome)
    (k : Nat) (d : ℚ) :
    (∀ remaining attempt s, 400 ≤ s → s < 500 →
        responses attempt = AttemptOutcome.httpError s →
        requestGo responses d remaining attempt
          = (Except.error (APIError.httpStatus s), [])) ∧
    ((∀ i, i ≤ k → isRetryable (responses i) = true) →
        api_request responses k d
          = (Except.error (errOf (responses k)),
             (List.range k).map (fun i => d * 2 ^ i))) ∧
    (∀ v, responses 0 = AttemptOutcome.httpError 503 →
        responses 1 = AttemptOutcome.httpError 503 →
        responses 2 = AttemptOutcome.success v → 2 ≤ k →
        api_request responses k d
          = (Except.ok v, [d * 2 ^ 0, d * 2 ^ 1])) := by
  refine ⟨?_, ?_, ?_⟩
  · intro remaining attempt s h4 h5 hresp
    exact requestGo_client_error responses d remaining attempt s h4 h5 hresp
  · intro h
    have hh : ∀ i, i ≤ k → isRetryable (responses (0 + i)) = true := by
      intro i hi
      simpa using h i hi
    have := requestGo_exhaust responses d k 0 hh
    simpa [api_request] using this
  · intro v h0 h1 h2 hk
    exact requestGo_503_scenario responses d v k h0 h1 h2 hk

/-- Witness for C6 with the default configuration (3 retries, base delay
1): a 404 fails immediately with no delay; an always-503 source exhausts
all four attempts with three backoff delays and raises the 503; the
503-503-success source returns the payload after exactly two delays. -/
theorem C6_fetch_retry_policy_witness :
    requestGo resp404 1 3 0 = (Except.error (APIError.httpStatus 404), [])
    ∧ api_request resp503 3 1
        = (Except.error (APIError.httpStatus 503),
           [(1 : ℚ) * 2 ^ 0, 1 * 2 ^ 1, 1 * 2 ^ 2])
    ∧ api_request resp503twice 3 1
        = (Except.ok 7, [(1 : ℚ) * 2 ^ 0, 1 * 2 ^ 1]) := by
  refine ⟨?_, ?_, ?_⟩
  · exact (C6_fetch_retry_policy resp404 3 1).1 3 0 404 (by decide)
      (by decide) rfl
  · exact (C6_fetch_retry_policy resp503 3 1).2.1 (fun i _ => rfl)
  · exact (C6_fetch_retry_policy resp503twice 3 1).2.2 7 rfl rfl rfl
      (by decide)

lemma runSchedule_lookup (fetch : Nat → List ExternalCompany) :
    ∀ (order : List Nat)
      (slots : Nat → Option (List ExternalCompany)) (q : Nat),
    runSchedule fetch order slots q
      = if q ∈ order then some (fetch q) else slots q := by
  intro order
  induction order with
  | nil =>
    intro slots q
    simp [runSchedule]
  | cons p rest ih =>
    intro slots q
    simp only [runSchedule, List.foldl_cons] at ih ⊢
    rw [ih]
    by_cases hq : q ∈ rest
    · simp [hq]
    · by_cases hqp : q = p
      · subst hqp
        simp [hq, fillSlot]
      · simp [hq, hqp, fillSlot]

/-- C7: for every completion order of the concurrently issued page
fetches that completes every page (in particular every permutation of the
page numbers), `get_all_companies` returns the concatenation of the
pages' record lists in ascending page-number order. -/
theorem C7_page_concatenation_ascending
    (fetch : Nat → List ExternalCompany) (total_records page_size : Nat)
    (order : List Nat)
    (hcomplete : ∀ p,
      p ∈ List.range' 1 (get_total_pages total_records page_size) →
      p ∈ order) :
    get_all_companies fetch total_records page_size order
      = ((List.range' 1 (get_total_pages total_records page_size)).map
          fetch).flatten := by
  unfold get_all_companies
  refine congrArg _ ?_
  refine List.map_congr_left ?_
  intro p hp
  rw [runSchedule_lookup]
  simp [hcomplete p hp]

/-- Witness for C7: 150 records at page size 50 give 3 pages; with
completion order `[3, 1, 2]` (page 3 resolving before page 1) the result
is still pages 1, 2, 3 concatenated in ascending order. -/
theorem C7_page_concatenation_ascending_witness :
    get_all_companies (fun p => [scenarioRecord p]) 150 50 [3, 1, 2]
        = ((List.range' 1 (get_total_pages 150 50)).map
            (fun p => [scenarioRecord p])).flatten
      ∧ get_all_companies (fun p => [scenarioRecord p]) 150 50 [3, 1, 2]
        = [scenarioRecord 1, scenarioRecord 2, scenarioRecord 3] := by
  refine ⟨C7_page_concatenation_ascending (fun p => [scenarioRecord p])
    150 50 [3, 1, 2] (by decide), by rfl⟩

lemma findLog_updateLog (id : Nat) (u : SyncLogUpdate) :
    ∀ (logs : List SyncLogRow),
    findLog (updateLog logs id u) id
      = (findLog logs id).map (fun r => applyUpdate r u) := by
  intro logs
  induction logs with
  | nil => simp [findLog, updateLog]
  | cons r rest ih =>
    by_cases h : r.id = id
    · simp [findLog, updateLog, h, applyUpdate]
    · simp only [updateLog, List.map_cons, if_neg h] at ih ⊢
      simp only [findLog, List.find?_cons] at ih ⊢
      have hb : (r.id == id) = false := by simpa using h
      simp [hb, ih]

/-- C3: `start_sync` raises the already-running condition — before any
write — when the global running flag is set, and otherwise inserts a
`running` sync-log row, publishes a fresh running progress state with the
new run's identifier, zero page and record counts and the start time, and
returns the new run. -/
theorem C3_start_sync_check_then_publish (now : Int) (w : SyncWorld) :
    (w.state.is_running = true → start_sync now w = Except.error ()) ∧
    (w.state.is_running = false →
      start_sync now w = Except.ok
        ({ state := freshRunningState w.nextId now,
           logs := w.logs ++ [runningRow w.nextId now],
           nextId := w.nextId + 1 },
         runningRow w.nextId now)) := by
  constructor
  · intro h
    simp [start_sync, h]
  · intro h
    simp [start_sync, h, create_sync_log, runningRow, freshRunningState]

/-- Witness for C3: from the idle initial world, `start_sync` accepts and
produces `startedWorld` and the `running` row with id 1; from the started
world, a second `start_sync` raises the already-running condition. -/
theorem C3_start_sync_check_then_publish_witness :
    start_sync 0 idleWorld = Except.ok (startedWorld, runningRow 1 0)
    ∧ start_sync 5 startedWorld = Except.error () := by
  constructor
  · have h := (C3_start_sync_check_then_publish 0 idleWorld).2 rfl
    simpa [idleWorld, startedWorld] using h
  · exact (C3_start_sync_check_then_publish 5 startedWorld).1 rfl

/-- C8: `cancel_sync` returns `false` and changes neither the sync log nor
the global state when no sync is running; when a sync is running (with the
current run's identifier set) it writes `end_time` and status `cancelled`
to that run's sync-log row, clears the running flag so that a subsequent
progress query reports `is_running = false`, and returns `true`. -/
theorem C8_cancel_sync_semantics (now now2 : Int) (w : SyncWorld) :
    (w.state.is_running = false → cancel_sync now w = (false, w)) ∧
    (∀ id row, w.state.is_running = true →
      w.state.current_sync_id = some id → id ≠ 0 →
      findLog w.logs id = some row →
      (cancel_sync now w).1 = true
      ∧ (findLog (cancel_sync now w).2.logs id).map (fun r => r.end_time)
          = some (some now)
      ∧ (findLog (cancel_sync now w).2.logs id).map (fun r => r.status)
          = some (some "cancelled")
      ∧ (cancel_sync now w).2.state.is_running = false
      ∧ (get_sync_progress (cancel_sync now w).2.state now2).is_running
          = false) := by
  constructor
  · intro h
    simp [cancel_sync, h]
  · intro id row hrun hid hnz hfind
    simp only [cancel_sync, hrun, Bool.not_true, Bool.false_eq_true,
      if_false, hid, ne_eq, hnz, not_false_eq_true, if_true]
    refine ⟨trivial, ?_, ?_, trivial, ?_⟩
    · rw [findLog_updateLog, hfind]
      simp [applyUpdate]
    · rw [findLog_updateLog, hfind]
      simp [applyUpdate]
    · simp [get_sync_progress]

/-- Witness for C8: cancelling the idle world is a no-op returning
`false`; cancelling the started world returns `true`, marks row 1
`cancelled` with `end_time` 5, and the subsequent progress snapshot shows
`is_running = false`. -/
theorem C8_cancel_sync_semantics_witness :
    cancel_sync 5 idleWorld = (false, idleWorld)
    ∧ (cancel_sync 5 startedWorld).1 = true
    ∧ (findLog (cancel_sync 5 startedWorld).2.logs 1).map
        (fun r => r.end_time) = some (some 5)
    ∧ (findLog (cancel_sync 5 startedWorld).2.logs 1).map
        (fun r => r.status) = some (some "cancelled")
    ∧ (get_sync_progress (cancel_sync 5 startedWorld).2.state 9).is_running
        = false := by
  have h1 := (C8_cancel_sync_semantics 5 9 idleWorld).1 rfl
  have h2 := (C8_cancel_sync_semantics 5 9 startedWorld).2 1
    (runningRow 1 0) rfl rfl (by decide) rfl
  exact ⟨h1, h2.1, h2.2.1, h2.2.2.1, h2.2.2.2.2⟩

/-- C9: every `_update_sync_log` write overwrites all seven mutable
columns of the row with the update object's fields, including fields the
caller did not set; in particular, after `cancel_sync` on a running sync,
the run's row has `total_records`, `success_records`, `failed_records`,
`error_message` and `duration_ms` set to NULL rather than keeping their
previously stored values. -/
theorem C9_terminal_write_blanks_unset_columns (now : Int) (w : SyncWorld)
    (id : Nat) (row : SyncLogRow)
    (hrun : w.state.is_running = true)
    (hid : w.state.current_sync_id = some id) (hnz : id ≠ 0)
    (hfind : findLog w.logs id = some row) :
    (∀ (r : SyncLogRow) (u : SyncLogUpdate),
      applyUpdate r u =
        { id := r.id, start_time := r.start_time,
          end_time := u.end_time, status := u.status,
          total_records := u.total_records,
          success_records := u.success_records,
          failed_records := u.failed_records,
          error_message := u.error_message,
          duration_ms := u.duration_ms })
    ∧ findLog (cancel_sync now w).2.logs id
        = some
          { id := row.id, start_time := row.start_time,
            end_time := some now, status := some "cancelled",
            total_records := none, success_records := none,
            failed_records := none, error_message := none,
            duration_ms := none } := by
  constructor
  · intro r u
    rfl
  · simp only [cancel_sync, hrun, Bool.not_true, Bool.false_eq_true,
      if_false, hid, ne_eq, hnz, not_false_eq_true, if_true]
    rw [findLog_updateLog, hfind]
    rfl

/-- Witness for C9: cancelling `richRunningWorld` (whose row holds counts
7/5/2, an error message and a duration) leaves row 1 with those five
columns NULL, `end_time` 3 and status `cancelled`. -/
theorem C9_terminal_write_blanks_unset_columns_witness :
    findLog (cancel_sync 3 richRunningWorld).2.logs 1
      = some
        { id := 1, start_time := 0, end_time := some 3,
          status := some "cancelled", total_records := none,
          success_records := none, failed_records := none,
          error_message := none, duration_ms := none } :=
  (C9_terminal_write_blanks_unset_columns 3 richRunningWorld 1 richRow
    rfl rfl (by decide) rfl).2

/-- C10: computing the progress percentage never divides by zero — for
every state with `total_records = 0`, `get_percentage` returns 0, and for
every state with `total_records > 0` it returns
`processed_records / total_records * 100`; the progress snapshot can be
requested at any time, its percentage being `get_percentage` when running
and 0 in the idle snapshot. -/
theorem C10_percentage_division_guarded (st : SyncState) (now : Int) :
    (st.total_records = 0 → st.get_percentage = 0) ∧
    (0 < st.total_records →
      st.get_percentage
        = (st.processed_records : ℚ) / (st.total_records : ℚ) * 100) ∧
    (get_sync_progress st now).percentage
      = (if st.is_running = true then st.get_percentage else 0) := by
  refine ⟨?_, ?_, ?_⟩
  · intro h
    simp [SyncState.get_percentage, h]
  · intro h
    have hne : ¬st.total_records = 0 := by omega
    simp [SyncState.get_percentage, hne]
  · cases hrun : st.is_running with
    | false => simp [get_sync_progress, hrun]
    | true => simp [get_sync_progress, hrun]

/-- Witness for C10: 150 of 500 records gives 30 percent, the running
snapshot reports it, and the idle snapshot reports 0. -/
theorem C10_percentage_division_guarded_witness :
    progressState.get_percentage = 30
    ∧ (get_sync_progress progressState 0).percentage = 30
    ∧ (get_sync_progress ({} : SyncState) 0).percentage = 0 := by
  have h := C10_percentage_division_guarded progressState 0
  have h30 : progressState.get_percentage = 30 := by
    rw [h.2.1 (by decide)]
    norm_num [progressState]
  refine ⟨h30, ?_, ?_⟩
  · rw [h.2.2]
    rw [show progressState.is_running = true from rfl]
    simpa using h30
  · rw [(C10_percentage_division_guarded ({} : SyncState) 0).2.2]
    simp

/-- C2, counterexample: start a run (row 1, status `running`), cancel it
(row 1 receives the terminal status `cancelled`), then let the
still-executing perform step reach its completion epilogue — its
unconditional write changes the terminal row again, overwriting
`cancelled` with `completed`. -/
theorem C2_counterexample_perform_overwrites_cancelled :
    start_sync 0 idleWorld = Except.ok (startedWorld, runningRow 1 0)
    ∧ (cancel_sync 1 startedWorld).1 = true
    ∧ (findLog cancelledWorld.logs 1).map (fun r => r.status)
        = some (some "cancelled")
    ∧ (findLog (perform_sync_complete 2 100 42 0 200 1
          cancelledWorld).logs 1).map (fun r => r.status)
        = some (some "completed") := by
  refine ⟨by rfl, by rfl, by rfl, by rfl⟩

/-- C2, amended: a terminal sync-log status persists only while no later
update targets the row — the orchestrator does not guard terminal rows.
The epilogues of `perform_sync` run unconditionally: for any world in
which the run's row exists (in particular one where `cancel_sync` has
already written the terminal status `cancelled` for the currently running
run), the completion epilogue overwrites the row's status with
`completed` and the failure epilogue with `failed`, each also clearing
the running flag. -/
theorem C2_amended_terminal_rows_unguarded (w : SyncWorld) (t : Int)
    (total s f dur : Nat) (id : Nat) (msg : String) (row : SyncLogRow)
    (hfind : findLog w.logs id = some row) :
    (findLog (perform_sync_complete t total s f dur id w).logs id).map
        (fun r => r.status) = some (some "completed")
    ∧ (perform_sync_complete t total s f dur id w).state.is_running
        = false
    ∧ (findLog (perform_sync_failed t msg dur id w).logs id).map
        (fun r => r.status) = some (some "failed")
    ∧ (perform_sync_failed t msg dur id w).state.is_running = false := by
  refine ⟨?_, rfl, ?_, rfl⟩
  · simp only [perform_sync_complete]
    rw [findLog_updateLog, hfind]
    rfl
  · simp only [perform_sync_failed]
    rw [findLog_updateLog, hfind]
    rfl

/-- Witness for C2's amended theorem, applied to the cancelled world: the
completion epilogue rewrites the cancelled row 1 to `completed`, the
failure epilogue to `failed`. -/
theorem C2_amended_terminal_rows_unguarded_witness :
    (findLog (perform_sync_complete 2 100 42 0 200 1
        cancelledWorld).logs 1).map (fun r => r.status)
      = some (some "completed")
    ∧ (perform_sync_complete 2 100 42 0 200 1
        cancelledWorld).state.is_running = false
    ∧ (findLog (perform_sync_failed 2 "boom" 200 1
        cancelledWorld).logs 1).map (fun r => r.status)
      = some (some "failed")
    ∧ (perform_sync_failed 2 "boom" 200 1
        cancelledWorld).state.is_running = false :=
  C2_amended_terminal_rows_unguarded cancelledWorld 2 100 42 0 200 1
    "boom" cancelledRow (by rfl)

/-- C4, counterexample: under the schedule A-check, B-check, A-resume,
B-resume — both calls suspended at the awaited sync-log insert — both
callers are accepted, with run ids 1 and 2, and two `running` sync-log
rows are inserted: the check and the set do not act as one atomic
check-and-set, and two sync runs become active. -/
theorem C4_counterexample_interleaved_both_accepted :
    (runStarts 0 [Caller.A, Caller.B, Caller.A, Caller.B]
        twoStartsInit).a = StartPC.accepted 1
    ∧ (runStarts 0 [Caller.A, Caller.B, Caller.A, Caller.B]
        twoStartsInit).b = StartPC.accepted 2
    ∧ (runStarts 0 [Caller.A, Caller.B, Caller.A, Caller.B]
        twoStartsInit).world.logs.map (fun r => r.status)
      = [some "running", some "running"] := by
  refine ⟨by rfl, by rfl, by rfl⟩

/-- C4, amended: the running-flag check and the flag set of `start_sync`
are separated by the awaited sync-log insert, so they do not form an
atomic check-and-set: two calls that interleave at that suspension point
are both accepted. Exactly one accepted and one rejected with the
already-running condition holds only when the calls do not interleave
there — e.g. under a sequential schedule in which one call completes
before the other checks. -/
theorem C4_amended_single_flight_only_without_interleaving (w : SyncWorld)
    (now : Int) (hrun : w.state.is_running = false) :
    (runStarts now [Caller.A, Caller.A, Caller.B, Caller.B]
        { world := w, a := StartPC.ready, b := StartPC.ready }).a
      = StartPC.accepted w.nextId
    ∧ (runStarts now [Caller.A, Caller.A, Caller.B, Caller.B]
        { world := w, a := StartPC.ready, b := StartPC.ready }).b
      = StartPC.rejected := by
  simp [runStarts, startStep, hrun, create_sync_log, freshRunningState]

/-- Witness for C4's amended theorem: from the idle initial world, the
sequential schedule accepts caller A with run id 1 and rejects caller B. -/
theorem C4_amended_single_flight_only_without_interleaving_witness :
    (runStarts 0 [Caller.A, Caller.A, Caller.B, Caller.B]
        { world := idleWorld, a := StartPC.ready, b := StartPC.ready }).a
      = StartPC.accepted 1
    ∧ (runStarts 0 [Caller.A, Caller.A, Caller.B, Caller.B]
        { world := idleWorld, a := StartPC.ready, b := StartPC.ready }).b
      = StartPC.rejected :=
  C4_amended_single_flight_only_without_interleaving idleWorld 0 rfl

end CompanySync
